import Mathlib

/-!
Verification development for the `download-resources.py` script of
AppImageCommunity/external-resources.

The script has two parts:
  * `parse_cmake_dependencies` (src lines 111-180): a generator that walks
    the parsed CMake statement list and yields dependency descriptors
    (`TarballURL`, `PatchURL`, `GitRepository`);
  * `main` (src lines 183-316): a loop that fetches each descriptor, either
    by cloning and archiving a git repository or by downloading a URL.

The embedding below follows the source line by line.  External
collaborators (the CMake statement parser, dulwich/git, requests, rfc6266,
hashlib) are modelled at their interfaces: statements are a list of nodes
with an optional name and argument nodes with optional string contents;
the network, the git client and the hash functions are an explicit
environment of pure functions.  Exceptions raised by the Python code are
modelled as explicit error results, and the stray `break` inside `main`'s
loop (src line 281) as an explicit early-exit outcome.
-/

/- ## String helpers (modelling Python `str` operations) -/

/-- Python `str.lower` (ASCII case folding suffices for the keywords used). -/
def lowerStr (s : String) : String := ⟨s.data.map Char.toLower⟩

/-- Helper: does `p` occur at the head of `l`? -/
def startsWithL : List Char → List Char → Bool
  | [], _ => true
  | _ :: _, [] => false
  | p :: ps, c :: cs => p = c && startsWithL ps cs

/-- Python `needle in haystack` for strings: contiguous substring test. -/
def isSubstrL (n : List Char) : List Char → Bool
  | [] => n.isEmpty
  | c :: cs => startsWithL n (c :: cs) || isSubstrL n cs

/-- Python `needle in haystack` on `String`. -/
def isSubstr (n h : String) : Bool := isSubstrL n.data h.data

/-- Python `str.replace(pat, rep)`: replace every non-overlapping occurrence
left to right.  The recursion is fuelled (structurally on the fuel) so that
it reduces definitionally; every step consumes at least one character, so a
fuel equal to the input length never runs out. -/
def replaceAllGo (pat rep : List Char) : Nat → List Char → List Char
  | 0, l => l
  | _ + 1, [] => []
  | fuel + 1, c :: cs =>
    if startsWithL pat (c :: cs) then
      rep ++ replaceAllGo pat rep fuel (List.drop (pat.length - 1) cs)
    else
      c :: replaceAllGo pat rep fuel cs

/-- Python `str.replace` on `String`. -/
def strRep (s pat rep : String) : String :=
  ⟨replaceAllGo pat.data rep.data s.data.length s.data⟩

/-- Python `str.strip(ch)` for a single strip character: remove every leading
and trailing occurrence of `ch`. -/
def stripChar (ch : Char) (s : String) : String :=
  ⟨(((s.data.dropWhile (· = ch)).reverse.dropWhile (· = ch)).reverse)⟩

/-- Python `str.rstrip(ch)` for a single strip character. -/
def rstripChar (ch : Char) (s : String) : String :=
  ⟨((s.data.reverse.dropWhile (· = ch)).reverse)⟩

/-- Python `s.split(sep)` for a one-character separator. -/
def splitOnCharL (sep : Char) : List Char → List (List Char)
  | [] => [[]]
  | c :: cs =>
    match splitOnCharL sep cs with
    | [] => [[]]
    | r :: rs => if c = sep then [] :: r :: rs else (c :: r) :: rs

/-- Python `s.split(sep)[-1]` for a one-character separator: the last
separated component (splitting on a non-empty separator always yields a
non-empty list, so `[-1]` never fails). -/
def lastComp (sep : Char) (s : String) : String := ⟨(splitOnCharL sep s.data).getLastD []⟩

/- ## urllib.parse.urlparse (external collaborator, modelled at its
interface): only the `scheme` and `netloc` components are consumed by the
script. -/

/-- Characters allowed inside a URL scheme after the initial letter. -/
def schemeChar (c : Char) : Bool := c.isAlpha || c.isDigit || c = '+' || c = '-' || c = '.'

/-- Split a character list at the first ':' provided everything before it is
made of scheme characters; `none` when there is no such prefix. -/
def splitScheme : List Char → Option (List Char × List Char)
  | [] => none
  | c :: cs =>
    if c = ':' then some ([], cs)
    else if schemeChar c then
      match splitScheme cs with
      | some (sch, rest) => some (c :: sch, rest)
      | none => none
    else none

/-- Modelled collaborator `urllib.parse.urlparse`, restricted to the pair
`(scheme, netloc)`: a scheme is a leading alphabetic-initial run of scheme
characters terminated by ':'; the netloc is present when the remainder
starts with "//" and extends to the next '/', '?' or '#'. -/
def urlparseSN (s : String) : String × String :=
  let l := s.data
  let p : List Char × List Char :=
    match splitScheme l with
    | some (sch, rest) =>
      match sch with
      | [] => ([], l)
      | c0 :: _ => if c0.isAlpha then (sch.map Char.toLower, rest) else ([], l)
    | none => ([], l)
  let netloc : List Char :=
    match p.2 with
    | '/' :: '/' :: r => r.takeWhile (fun c => !(c = '/' || c = '?' || c = '#'))
    | _ => []
  (⟨p.1⟩, ⟨netloc⟩)

/- ## Data model of the parsed CMake script (parser collaborator interface) -/

/-- An argument node of a parsed CMake statement; `contents` is `none` when
the Python object has no `contents` attribute. -/
structure ArgumentNode where
  contents : Option String
deriving DecidableEq, Repr

/-- A statement node of a parsed CMake script; `name` is `none` when the
Python object has no `name` attribute (comments, whitespace nodes). -/
structure StatementNode where
  name : Option String
  body : List ArgumentNode
deriving DecidableEq, Repr

/-- An argument node that does expose string contents. -/
def carg (s : String) : ArgumentNode := ⟨some s⟩

/-- The dependency descriptors yielded by the extractor: the namedtuples
`URL` (called `TarballURL` in the script), `PatchURL` and `GitRepository`
(src lines 18-20). -/
inductive Descriptor where
  | TarballURL (url : String) (hash : Option (String × String))
  | PatchURL (url : String)
  | GitRepository (url : String) (tag : Option String)
deriving DecidableEq, Repr

/-- The `EXTERNALPROJECT_OPTIONS` tuple (src lines 22-101), including the
duplicated trailing "URL" entry. -/
def EXTERNALPROJECT_OPTIONS : List String :=
  [ "DEPENDS", "PREFIX", "LIST_SEPARATOR", "TMP_DIR", "STAMP_DIR",
    "EXCLUDE_FROM_ALL", "DOWNLOAD_NAME", "DOWNLOAD_DIR", "DOWNLOAD_COMMAND",
    "DOWNLOAD_NO_PROGRESS", "CVS_REPOSITORY", "CVS_TAG", "SVN_REPOSITORY",
    "SVN_REVISION", "SVN_USERNAME", "SVN_PASSWORD", "SVN_TRUST_CERT",
    "GIT_REPOSITORY", "GIT_TAG", "GIT_REMOTE_NAME", "GIT_SUBMODULES",
    "GIT_SHALLOW", "GIT_PROGRESS", "GIT_CONFIG", "HG_REPOSITORY", "HG_TAG",
    "URL", "URL_HASH_ALGO", "URL_MD5", "HTTP_USERNAME", "HTTP_PASSWORD",
    "HTTP_HEADER", "TLS_VERIFY", "TLS_CAINFO", "TIMEOUT",
    "DOWNLOAD_NO_EXTRACT", "UPDATE_COMMAND", "UPDATE_DISCONNECTED",
    "PATCH_COMMAND", "SOURCE_DIR", "SOURCE_SUBDIR", "CONFIGURE_COMMAND",
    "CMAKE_COMMAND", "CMAKE_GENERATOR", "CMAKE_GENERATOR_PLATFORM",
    "CMAKE_GENERATOR_TOOLSET", "CMAKE_ARGS", "CMAKE_CACHE_ARGS",
    "CMAKE_CACHE_DEFAULT_ARGS", "BINARY_DIR", "BUILD_COMMAND",
    "BUILD_IN_SOURCE", "BUILD_ALWAYS", "BUILD_BYPRODUCTS", "INSTALL_DIR",
    "INSTALL_COMMAND", "TEST_BEFORE_INSTALL", "TEST_AFTER_INSTALL",
    "TEST_EXCLUDE_FROM_MAIN", "TEST_COMMAND", "LOG_DOWNLOAD", "LOG_UPDATE",
    "LOG_CONFIGURE", "LOG_BUILD", "LOG_TEST", "LOG_INSTALL",
    "USES_TERMINAL_DOWNLOAD", "USES_TERMINAL_UPDATE",
    "USES_TERMINAL_CONFIGURE", "USES_TERMINAL_BUILD", "USES_TERMINAL_TEST",
    "USES_TERMINAL_INSTALL", "STEP_TARGETS", "INDEPENDENT_STEP_TARGETS",
    "COMMAND", "URL" ]

/- ## The extractor: `parse_cmake_dependencies` (src lines 111-180) -/

/-- Exceptions the extractor can raise while being consumed: `IndexError`
from `args[i + 1]`-style indexing past the end, `AttributeError` from
reading `contents` off a node that lacks it. -/
inductive ExtractError where
  | indexError
  | attributeError
deriving DecidableEq, Repr

/-- The `while skip_args > 0: skip_args -= 1; continue` loop heading the
body of the outer argument scan (src lines 128-130).  The `continue`
continues the `while` itself, so the loop merely drains the counter to zero
and control falls through to inspect the same argument — it never skips an
iteration of the enclosing `for`. -/
def skipWhile : Nat → Nat
  | 0 => 0
  | n + 1 => skipWhile n

/-- The forward tag scan of the `git_repository` branch (src lines 150-157):
`for j, potential_tag in enumerate(args[i+2:])`.  The guard on src line 152
tests `hasattr(arg, "contents")` for the *outer* loop variable `arg` — which
holds the "git_repository" keyword and always has contents — so it never
fires, and `potential_tag.contents` is read unguarded (raising
`AttributeError` when absent).  A match on "git_tag" reads the next
argument's contents (`args[(i+2)+(j+1)].contents`, raising `IndexError`
past the end) and breaks. -/
def scanTag : List ArgumentNode → Except ExtractError (Option String)
  | [] => .ok none
  | pt :: rest =>
    match pt.contents with
    | none => .error .attributeError
    | some c =>
      if lowerStr c = "git_tag" then
        match rest with
        | [] => .error .indexError
        | v :: _ =>
          match v.contents with
          | none => .error .attributeError
          | some t => .ok (some t)
      else scanTag rest

/-- The patch-URL scan of the `patch_command` branch (src lines 166-180):
walk `args[i+1:]`, reading contents via `getattr(x, "contents", None)`
(skip when absent), stop at the first argument whose contents is a member of
`EXTERNALPROJECT_OPTIONS` (exact, case-sensitive), and for the rest replace
the literal `$<SEMICOLON>` placeholder by ';', strip surrounding '"'
characters, and yield a `PatchURL` when `urlparse` finds both a scheme and
a netloc. -/
def scanPatches : List ArgumentNode → List Descriptor
  | [] => []
  | x :: rest =>
    match x.contents with
    | none => scanPatches rest
    | some c =>
      if EXTERNALPROJECT_OPTIONS.contains c then []
      else
        let c := stripChar '"' (strRep c "$<SEMICOLON>" ";")
        let parsed := urlparseSN c
        if parsed.1 ≠ "" ∧ parsed.2 ≠ "" then
          .PatchURL c :: scanPatches rest
        else scanPatches rest

/-- The outer argument scan of a matching `externalproject_add` statement
(src lines 125-180), recursing over the argument-list suffix (the head of
`rest` is `args[i]`; `args[i+1]` is the next element and so on, so all of
the source's relative indexing is preserved).  Each branch mirrors the
source: "url" yields a `TarballURL` of the next argument's contents with no
hash (src lines 137-141); "git_repository" reads the next argument as the
repository URL, runs the forward tag scan over the arguments after it and
yields a `GitRepository` (src lines 143-159); the `patch_command` test is
the source's `lc in ("patch_command")` — a *substring* test, since the
parenthesised operand is a plain string, not a tuple — and yields every
patch URL found by `scanPatches` (src lines 162-180).  Each branch sets
`skip_args = 1`, which `skipWhile` then drains without effect. -/
def extractLoop (skipArgs : Nat) : List ArgumentNode → Except ExtractError (List Descriptor)
  | [] => .ok []
  | arg :: rest =>
    let _drained := skipWhile skipArgs
    match arg.contents with
    | none => extractLoop _drained rest
    | some c =>
      let lc := lowerStr c
      if lc = "url" then
        match rest with
        | [] => .error .indexError
        | nxt :: _ =>
          match nxt.contents with
          | none => .error .attributeError
          | some u =>
            match extractLoop 1 rest with
            | .error e => .error e
            | .ok tl => .ok (.TarballURL u none :: tl)
      else if lc = "git_repository" then
        match rest with
        | [] => .error .indexError
        | nxt :: rest2 =>
          match nxt.contents with
          | none => .error .attributeError
          | some repoUrl =>
            match scanTag rest2 with
            | .error e => .error e
            | .ok tag =>
              match extractLoop 1 rest with
              | .error e => .error e
              | .ok tl => .ok (.GitRepository repoUrl tag :: tl)
      else if isSubstr lc "patch_command" then
        match extractLoop 1 rest with
        | .error e => .error e
        | .ok tl => .ok (scanPatches rest ++ tl)
      else extractLoop _drained rest

/-- The statement walk of `parse_cmake_dependencies` (src lines 120-123):
statements without a `name` attribute are skipped; a statement whose name
lowercases to "externalproject_add" has its argument list scanned.  The
generator is modelled as producing the full descriptor list, an exception
during enumeration aborting it. -/
def parse_cmake_dependencies : List StatementNode → Except ExtractError (List Descriptor)
  | [] => .ok []
  | st :: rest =>
    match st.name with
    | none => parse_cmake_dependencies rest
    | some n =>
      if lowerStr n = "externalproject_add" then
        match extractLoop 0 st.body with
        | .error e => .error e
        | .ok ds =>
          match parse_cmake_dependencies rest with
          | .error e => .error e
          | .ok tl => .ok (ds ++ tl)
      else parse_cmake_dependencies rest

/- ## The fetch stage: `main` (src lines 183-316) -/

/-- A streamed HTTP response, at the interface the script consumes:
`ok` is `response.raise_for_status()` not raising; `filename` is the
sanitized content-disposition filename produced by the rfc6266 collaborator
(src lines 254-257, external to this core); `contentLength` is the parsed
`Content-Length` header, `none` when absent or unparsable (src lines
266-269); `body` is the concatenation of the streamed chunks. -/
structure HttpResponse where
  ok : Bool
  filename : String
  contentLength : Option Nat
  body : List Nat
deriving DecidableEq, Repr

/-- The environment of external collaborators: `http` is `requests.get`;
`cloneOk` tells whether `porcelain.clone` succeeds for a URL; `describe`
is `git describe --always --tags <ref>` in the fresh clone of a URL;
`archive` is the byte content of the `git archive` tarball for a URL at a
ref; `algos` is `hashlib.algorithms_available`; `hash` is the hex digest of
a byte string under a named algorithm. -/
structure Env where
  http : String → HttpResponse
  cloneOk : String → Bool
  describe : String → String → String
  archive : String → String → List Nat
  algos : List String
  hash : String → List Nat → String

/-- The local filesystem, relative to the process working directory:
a set of existing directories and a map from file path to byte content. -/
structure FS where
  dirs : List String
  files : List (String × List Nat)
deriving DecidableEq, Repr

/-- Python `os.path.exists` on a file path. -/
def FS.existsFile (fs : FS) (p : String) : Bool := fs.files.any (fun e => e.1 = p)

/-- Content of the file at `p` (the most recent write wins), `[]` if absent. -/
def FS.read (fs : FS) (p : String) : List Nat :=
  ((fs.files.find? (fun e => e.1 = p)).map (fun e => e.2)).getD []

/-- Python `os.path.getsize`. -/
def FS.size (fs : FS) (p : String) : Nat := (fs.read p).length

/-- Writing `open(p, "wb")` content (shadows any previous entry). -/
def FS.put (fs : FS) (p : String) (b : List Nat) : FS := ⟨fs.dirs, (p, b) :: fs.files⟩

/-- Python `os.path.isdir`-style membership used to model directory
existence for `open`/`shutil.copyfile`. -/
def FS.hasDir (fs : FS) (d : String) : Bool := fs.dirs.contains d

/-- Python `os.makedirs(d, exist_ok=True)`. -/
def FS.mkdir (fs : FS) (d : String) : FS := ⟨d :: fs.dirs, fs.files⟩

/-- Python `os.path.dirname` for the simple relative paths the script
builds ("sources/f", "patches/f", or a bare filename). -/
def dirname (p : String) : String :=
  match p.data.reverse.dropWhile (fun c => c ≠ '/') with
  | [] => ""
  | _ :: rest => ⟨rest.reverse⟩

/-- Observable actions of one run, in order: every `log` call and every
externally visible effect of `main`. -/
inductive Event where
  | cloning (url : String)
  | gitCloned (url : String)
  | skipGitExists (name : String)
  | archived (pathPfx : String) (ref : String) (name : String)
  | copied (dst : String)
  | downloading (url : String)
  | unsupportedAlgo (algo : String)
  | httpGot (url : String)
  | skipHashMatch (path : String)
  | sizeUnknownOverwrite (path : String)
  | skipSizeMatch (path : String)
  | wrote (path : String)
  | integrityMismatch (expected got : String)
deriving DecidableEq, Repr

/-- Uncaught Python exceptions that escape `main`'s loop body: a failing
`porcelain.clone` (src line 192), the `TypeError` from passing the `None`
tag to `subprocess` (src line 197), `raise_for_status` on a bad response
(src line 252), and the `FileNotFoundError` from `shutil.copyfile` into a
missing directory (src line 224). -/
inductive RunError where
  | cloneFailed (url : String)
  | noneTagArg (url : String)
  | httpStatus (url : String)
  | missingDir (path : String)
deriving DecidableEq, Repr

/-- Outcome of one iteration of the descriptor loop: normal completion
(`continue` or fall-through), the stray `break` of src line 281 which exits
the whole loop, or an uncaught exception. -/
inductive ItemOutcome where
  | done (fs : FS) (evs : List Event)
  | brk (fs : FS) (evs : List Event)
  | err (e : RunError) (evs : List Event)
deriving DecidableEq, Repr

/-- Events of an item outcome. -/
def ItemOutcome.events : ItemOutcome → List Event
  | .done _ evs => evs
  | .brk _ evs => evs
  | .err _ evs => evs

/-- Python `os.path.join` for the relative two-component joins the script
performs. -/
def osJoin (a b : String) : String := a ++ "/" ++ b

/-- The short repository name (src line 188):
`repo_url.rstrip("/").split("/")[-1].replace(".git", "")` — note that
`str.replace` deletes *every* occurrence of ".git", not only a suffix. -/
def repoName (url : String) : String :=
  strRep (lastComp '/' (rstripChar '/' url)) ".git" ""

/-- The target tarball filename (src line 200):
`"{}-{}.tar.gz".format(repo_name, version)`. -/
def tarballName (url version : String) : String :=
  repoName url ++ "-" ++ version ++ ".tar.gz"

/-- The `GitRepository` branch of `main` (src lines 185-225): clone into an
ephemeral directory, resolve the version with `git describe` (the raw `tag`
value is placed in the subprocess argument list, so a `None` tag raises
`TypeError`), build `{repo_name}-{version}.tar.gz`, test `os.path.exists`
on that *bare* name (i.e. relative to the working directory), and otherwise
run `git archive` with path prefix `{repo_name}/` and copy the tarball to
`sources/{name}` (raising when the `sources` directory does not exist —
nothing on this path creates it). -/
def processGit (env : Env) (fs : FS) (url : String) (tag : Option String) : ItemOutcome :=
  let name0 := repoName url
  let evs : List Event := [.cloning url]
  if env.cloneOk url = false then .err (.cloneFailed url) evs
  else
    let evs := evs ++ [.gitCloned url]
    match tag with
    | none => .err (.noneTagArg url) evs
    | some t =>
      let version := env.describe url t
      let name := tarballName url version
      if fs.existsFile name then .done fs (evs ++ [.skipGitExists name])
      else
        let evs := evs ++ [.archived (name0 ++ "/") t name]
        let dst := osJoin "sources" name
        if fs.hasDir "sources" then
          .done (fs.put dst (env.archive url t)) (evs ++ [.copied dst])
        else .err (.missingDir dst) evs

/-- The download proper (src lines 299-315): `os.makedirs(dirname(path),
exist_ok=True)`, stream the body to `path`, and when a digest was being
computed compare it with the expected value, logging an
integrity-mismatch warning (the file is kept either way). -/
def doDownload (env : Env) (fs : FS) (path : String) (resp : HttpResponse)
    (dspec : Option (String × String)) (evs : List Event) : ItemOutcome :=
  let fs1 := fs.mkdir (dirname path)
  let fs2 := fs1.put path resp.body
  let evs := evs ++ [.wrote path]
  match dspec with
  | some (alg, hv) =>
    let dg := env.hash alg resp.body
    if hv = dg then .done fs2 evs
    else .done fs2 (evs ++ [.integrityMismatch hv dg])
  | none => .done fs2 evs

/-- The size heuristic reached when the local file exists and the hash
comparison did not decide a skip (src lines 290-297): with no declared
content length, warn and overwrite; with one, skip exactly when it equals
the local size. -/
def sizeGate (env : Env) (fs : FS) (path : String) (resp : HttpResponse)
    (dspec : Option (String × String)) (evs : List Event) : ItemOutcome :=
  match resp.contentLength with
  | none => doDownload env fs path resp dspec (evs ++ [.sizeUnknownOverwrite path])
  | some t =>
    if fs.size path = t then .done fs (evs ++ [.skipSizeMatch path])
    else doDownload env fs path resp dspec evs

/-- The URL branch of `main` (src lines 227-315), shared by `TarballURL`
(destination directory "sources") and `PatchURL` (destination "patches",
hash always `none`).  The hash set-up mirrors src lines 237-249 (an
unsupported algorithm only disables verification, with a warning); the GET
and `raise_for_status` mirror src lines 251-252; the existing-file logic
mirrors src lines 271-297: when a digest algorithm is active, a single
`f.read(4096)` is hashed — only the first 4096 bytes of the local file —
and when that read returns no data the stray `break` (src line 281) exits
the entire descriptor loop; a digest match skips; otherwise control falls
through to the size heuristic. -/
def processUrl (env : Env) (fs : FS) (url : String) (h : Option (String × String))
    (dir : String) : ItemOutcome :=
  let evs : List Event := [.downloading url]
  let setup : List Event × Option (String × String) :=
    match h with
    | none => ([], none)
    | some (alg, hv) =>
      if env.algos.contains alg then ([], some (alg, hv))
      else ([.unsupportedAlgo alg], none)
  let evs := evs ++ setup.1
  let dspec := setup.2
  let resp := env.http url
  let evs := evs ++ [.httpGot url]
  if resp.ok = false then .err (.httpStatus url) evs
  else
    let path := osJoin dir resp.filename
    if fs.existsFile path then
      match dspec with
      | some (alg, hv) =>
        let data := (fs.read path).take 4096
        if data.isEmpty then .brk fs evs
        else
          let localDigest := env.hash alg data
          if hv = localDigest then .done fs (evs ++ [.skipHashMatch path])
          else sizeGate env fs path resp dspec evs
      | none => sizeGate env fs path resp dspec evs
    else doDownload env fs path resp dspec evs

/-- Dispatch of `main`'s loop body over the descriptor variants
(src lines 185, 227-233, 259-264). -/
def processItem (env : Env) (fs : FS) : Descriptor → ItemOutcome
  | .GitRepository url tag => processGit env fs url tag
  | .TarballURL url h => processUrl env fs url h "sources"
  | .PatchURL url => processUrl env fs url none "patches"

/-- Result of the whole descriptor loop: it either finishes, exits early
through the stray `break`, or dies on an uncaught exception; in the last
two cases `remaining` lists the descriptors that were never processed. -/
inductive RunResult where
  | finished (fs : FS) (evs : List Event)
  | stopped (fs : FS) (evs : List Event) (remaining : List Descriptor)
  | errored (e : RunError) (evs : List Event) (remaining : List Descriptor)
deriving DecidableEq, Repr

/-- The descriptor loop of `main` (src line 184 onward), over an explicit
descriptor list (in the script the list is streamed from
`parse_cmake_dependencies()`; an exception in any item's processing
propagates out of `main` and aborts the run). -/
def processAll (env : Env) : FS → List Descriptor → RunResult
  | fs, [] => .finished fs []
  | fs, d :: rest =>
    match processItem env fs d with
    | .done fs1 evs =>
      match processAll env fs1 rest with
      | .finished fs2 evs2 => .finished fs2 (evs ++ evs2)
      | .stopped fs2 evs2 rem => .stopped fs2 (evs ++ evs2) rem
      | .errored e evs2 rem => .errored e (evs ++ evs2) rem
    | .brk fs1 evs => .stopped fs1 evs rest
    | .err e evs => .errored e evs rest

/- ## Auxiliary definitions for the statements below -/

/-- The statement filter of src line 122 as a Boolean predicate: the
statement has a `name` whose lowercasing is "externalproject_add". -/
def matchesExternalProject (st : StatementNode) : Bool :=
  match st.name with
  | none => false
  | some n => lowerStr n = "externalproject_add"

/-- The naming rule as the specification words it, for comparison with the
source's `repoName`: strip a trailing slash, take the short name, and strip
a ".git" *suffix* (and nothing else). -/
def repoNameSpec (url : String) : String :=
  let base := (lastComp '/' (rstripChar '/' url)).data
  if base.reverse.take 4 = ".git".data.reverse then ⟨(base.reverse.drop 4).reverse⟩
  else ⟨base⟩

/-- Test environment whose GET always fails (non-success status). -/
def envDown : Env :=
  ⟨fun _ => ⟨false, "", none, []⟩, fun _ => true, fun _ t => t,
   fun _ _ => [5, 5], ["alg1"], fun a bs => a ++ "-" ++ toString bs.length⟩

/-- Test environment with a healthy network: every GET succeeds with
filename "a.tgz", declared length 4 and body `[9, 9, 9, 9]`; clones
succeed; `describe` resolves a ref to itself; archives have content
`[5, 5]`; the hash layer supports algorithm "alg1" and digests a byte
string to its algorithm name and length. -/
def envOk : Env :=
  ⟨fun _ => ⟨true, "a.tgz", some 4, [9, 9, 9, 9]⟩, fun _ => true, fun _ t => t,
   fun _ _ => [5, 5], ["alg1"], fun a bs => a ++ "-" ++ toString bs.length⟩

/-- A filesystem holding `sources/a.tgz` with content `[1, 2, 3, 4]`. -/
def fsSomeTgz : FS := ⟨["sources"], [("sources/a.tgz", [1, 2, 3, 4])]⟩

/-- A filesystem holding an *empty* `sources/a.tgz`. -/
def fsEmptyTgz : FS := ⟨["sources"], [("sources/a.tgz", [])]⟩

/-- A filesystem where the git target tarball exists in `sources/` but not
in the working directory. -/
def fsTgzInSources : FS := ⟨["sources"], [("sources/foo-v1.tar.gz", [1])]⟩

/-- A filesystem where `foo-v1.tar.gz` exists in the working directory. -/
def fsTgzInCwd : FS := ⟨["sources"], [("foo-v1.tar.gz", [1])]⟩

/-- The empty filesystem: no directories, no files. -/
def fsNil : FS := ⟨[], []⟩

/-- A filesystem with an empty `sources/` directory and no files. -/
def fsSourcesOnly : FS := ⟨["sources"], []⟩

/- ## Supporting lemmas -/

/-- The skip-count `while` loop always drains the counter to zero and falls
through: it never consumes an argument of the enclosing `for` loop. -/
theorem skipWhile_eq_zero (n : Nat) : skipWhile n = 0 := by
  induction n with
  | zero => rfl
  | succ m ih => simpa [skipWhile] using ih

/-- Taking a positive number of elements of a non-empty list is non-empty. -/
theorem take_isEmpty_false (n : Nat) (l : List Nat) (h1 : l ≠ []) (h2 : 0 < n) :
    (l.take n).isEmpty = false := by
  cases l with
  | nil => exact absurd rfl h1
  | cons a as =>
    cases n with
    | zero => omega
    | succ m => simp [List.take_succ_cons]

/- ## Claim theorems -/

/-- C1: the skip count does not work as claimed.  In a matching statement
with arguments `["URL", "url", "x"]`, the `while skip_args > 0` loop drains
the counter inside the same iteration of the `for` loop (its `continue`
continues the `while`, not the `for`), so the value argument "url" *is*
re-inspected by the outer scan, matches the keyword "url" again, and a
second descriptor `TarballURL("x")` is yielded in addition to
`TarballURL("url")`. -/
theorem C1_skip_count_eval :
    parse_cmake_dependencies
        [⟨some "ExternalProject_Add", [carg "URL", carg "url", carg "x"]⟩] =
      .ok [.TarballURL "url" none, .TarballURL "x" none] := by
  rfl

/-- C4 counterexample: extraction is not raise-free.  A matching statement
whose "URL" keyword is the final argument raises `IndexError` from
`args[i + 1]`. -/
theorem C4_counterexample :
    parse_cmake_dependencies [⟨some "externalproject_add", [carg "URL"]⟩] =
      .error .indexError := by
  rfl

/-- C4 amended: the silent skipping only holds at the statement level —
every script none of whose statements carries a name lowercasing to
"externalproject_add" extracts without error and yields nothing; within a
matching statement, a recognized keyword in final position or a
contents-less argument met by the tag scan does raise. -/
theorem C4_amended (script : List StatementNode)
    (h : script.all (fun st => !matchesExternalProject st) = true) :
    parse_cmake_dependencies script = .ok [] := by
  induction script with
  | nil => rfl
  | cons st rest ih =>
    simp only [List.all_cons, Bool.and_eq_true, Bool.not_eq_true'] at h
    obtain ⟨h1, h2⟩ := h
    have ih' := ih h2
    cases hn : st.name with
    | none => simp [parse_cmake_dependencies, hn, ih']
    | some n =>
      have hne : ¬(lowerStr n = "externalproject_add") := by
        simpa [matchesExternalProject, hn] using h1
      simp [parse_cmake_dependencies, hn, hne, ih']

/-- C4 witness: a script made of an unnamed node and a `set` call is
silently skipped. -/
theorem C4_amended_witness :
    ([(⟨none, []⟩ : StatementNode), ⟨some "set", [carg "URL"]⟩].all
        (fun st => !matchesExternalProject st) = true) ∧
    parse_cmake_dependencies [⟨none, []⟩, ⟨some "set", [carg "URL"]⟩] = .ok [] :=
  ⟨by decide, C4_amended _ (by decide)⟩

/-- C6: an argument need not equal a recognized keyword to trigger a
branch.  The source's `lc in ("patch_command")` is a *substring* test (the
parenthesised operand is a string, not a tuple), so the bare token
"COMMAND" — whose lowercasing "command" is a substring of "patch_command" —
enters the patch branch and a `PatchURL` descriptor is emitted. -/
theorem C6_command_substring_eval :
    parse_cmake_dependencies
        [⟨some "externalproject_add",
          [carg "COMMAND", carg "https://example.com/a.patch"]⟩] =
      .ok [.PatchURL "https://example.com/a.patch"] := by
  rfl

/-- C8 counterexample: the short repository name is not obtained by
stripping only a ".git" *suffix*: `str.replace(".git", "")` deletes every
occurrence, so `https://example.com/foo.gitx` yields "foox" where
suffix-stripping (the spec's wording, `repoNameSpec`) yields "foo.gitx". -/
theorem C8_counterexample :
    repoName "https://example.com/foo.gitx" = "foox" ∧
    repoNameSpec "https://example.com/foo.gitx" = "foo.gitx" :=
  ⟨by rfl, by rfl⟩

/-- C2 counterexample: an item-level network failure is not caught.  With a
GET returning a non-success status, `raise_for_status` (src line 252)
raises out of `main`: the run errors out immediately, no warning-and-skip
happens, no retry is attempted, and the second descriptor is never
processed. -/
theorem C2_counterexample :
    processAll envDown fsNil
        [.TarballURL "https://x/a.tgz" none, .TarballURL "https://x/b.tgz" none] =
      .errored (.httpStatus "https://x/a.tgz")
        [.downloading "https://x/a.tgz", .httpGot "https://x/a.tgz"]
        [.TarballURL "https://x/b.tgz" none] := by
  rfl

/-- C2 amended: a plain-URL item whose GET has a non-success status makes
the whole run abort with an uncaught exception: exactly one GET is issued
(no retry), and every remaining descriptor is left unprocessed. -/
theorem C2_amended (env : Env) (fs : FS) (url : String) (rest : List Descriptor)
    (h : (env.http url).ok = false) :
    processAll env fs (.TarballURL url none :: rest) =
      .errored (.httpStatus url) [.downloading url, .httpGot url] rest := by
  simp [processAll, processItem, processUrl, h]

/-- C2 witness: the amended behavior at a concrete failing download. -/
theorem C2_amended_witness :
    (envDown.http "https://y/c.tgz").ok = false ∧
    processAll envDown fsNil [.TarballURL "https://y/c.tgz" none] =
      .errored (.httpStatus "https://y/c.tgz")
        [.downloading "https://y/c.tgz", .httpGot "https://y/c.tgz"] [] :=
  ⟨rfl, C2_amended envDown fsNil "https://y/c.tgz" [] rfl⟩

/-- C5 counterexample: a `GitRepository` descriptor with `tag = None` is
not fetched against a default "master" branch: the `None` tag is placed
directly into the `git describe` argument list (src line 197), which
raises, aborting the run right after the clone. -/
theorem C5_counterexample :
    processAll envOk fsNil [.GitRepository "https://x/b.git" none] =
      .errored (.noneTagArg "https://x/b.git")
        [.cloning "https://x/b.git", .gitCloned "https://x/b.git"] [] := by
  rfl

/-- C5 amended: extraction of a `GIT_REPOSITORY` option with no later
`GIT_TAG` does yield `GitRepository{url, tag = none}`, but the fetch stage
does not substitute any default branch name: after cloning it passes the
absent tag straight to the `git describe` invocation, which fails and
aborts the run. -/
theorem C5_amended (env : Env) (fs : FS) (url : String) (rest : List Descriptor)
    (hclone : env.cloneOk url = true) :
    parse_cmake_dependencies
        [⟨some "externalproject_add", [carg "GIT_REPOSITORY", carg "https://x/b.git"]⟩] =
      .ok [.GitRepository "https://x/b.git" none]
    ∧ processAll env fs (.GitRepository url none :: rest) =
        .errored (.noneTagArg url) [.cloning url, .gitCloned url] rest := by
  refine ⟨by rfl, ?_⟩
  simp [processAll, processItem, processGit, hclone]

/-- C5 witness: the amended behavior at a concrete tagless repository. -/
theorem C5_amended_witness :
    envOk.cloneOk "https://y/d.git" = true ∧
    (parse_cmake_dependencies
        [⟨some "externalproject_add", [carg "GIT_REPOSITORY", carg "https://x/b.git"]⟩] =
      .ok [.GitRepository "https://x/b.git" none]
    ∧ processAll envOk fsNil [.GitRepository "https://y/d.git" none] =
        .errored (.noneTagArg "https://y/d.git")
          [.cloning "https://y/d.git", .gitCloned "https://y/d.git"] []) :=
  ⟨rfl, C5_amended envOk fsNil "https://y/d.git" [] rfl⟩

/-- C7 counterexample: the pre-clone existence check does not look in the
`sources/` destination.  Here `sources/foo-v1.tar.gz` exists, yet the item
is not skipped: the archive is rebuilt and copied over it, because
`os.path.exists(tarball_name)` (src line 202) tests the bare filename
relative to the working directory. -/
theorem C7_counterexample :
    processAll envOk fsTgzInSources
        [.GitRepository "https://example.com/foo.git" (some "v1")] =
      .finished
        (⟨["sources"],
          [("sources/foo-v1.tar.gz", [5, 5]), ("sources/foo-v1.tar.gz", [1])]⟩ : FS)
        [.cloning "https://example.com/foo.git", .gitCloned "https://example.com/foo.git",
         .archived "foo/" "v1" "foo-v1.tar.gz", .copied "sources/foo-v1.tar.gz"] := by
  rfl

/-- C7 amended: after resolving the version, the fetch stage checks the
bare `{repo_name}-{version}.tar.gz` filename relative to the current
working directory (not the `sources/` destination); when that file exists
the item is skipped with a warning and nothing is written. -/
theorem C7_amended (env : Env) (fs : FS) (url t : String)
    (hclone : env.cloneOk url = true)
    (hex : fs.existsFile (tarballName url (env.describe url t)) = true) :
    processItem env fs (.GitRepository url (some t)) =
      .done fs [.cloning url, .gitCloned url,
        .skipGitExists (tarballName url (env.describe url t))] := by
  simp [processItem, processGit, hclone, hex]

/-- C7 witness: with `foo-v1.tar.gz` present in the working directory the
item is skipped with a warning and the filesystem is untouched. -/
theorem C7_amended_witness :
    envOk.cloneOk "https://example.com/foo.git" = true ∧
    fsTgzInCwd.existsFile "foo-v1.tar.gz" = true ∧
    processItem envOk fsTgzInCwd (.GitRepository "https://example.com/foo.git" (some "v1")) =
      .done fsTgzInCwd
        [.cloning "https://example.com/foo.git", .gitCloned "https://example.com/foo.git",
         .skipGitExists "foo-v1.tar.gz"] :=
  ⟨rfl, rfl, C7_amended envOk fsTgzInCwd "https://example.com/foo.git" "v1" rfl rfl⟩

/-- C8 amended: the short name is the last '/'-separated component of the
URL (after dropping trailing slashes) with every occurrence of ".git"
deleted (`repoName`); the exported file is
`sources/{repoName}-{version}.tar.gz` and the archive's internal path
prefix is `{repoName}/`. -/
theorem C8_amended (env : Env) (fs : FS) (url t : String)
    (hclone : env.cloneOk url = true)
    (hex : fs.existsFile (tarballName url (env.describe url t)) = false)
    (hdir : fs.hasDir "sources" = true) :
    processItem env fs (.GitRepository url (some t)) =
      .done (fs.put (osJoin "sources" (tarballName url (env.describe url t)))
               (env.archive url t))
        [.cloning url, .gitCloned url,
         .archived (repoName url ++ "/") t (tarballName url (env.describe url t)),
         .copied (osJoin "sources" (tarballName url (env.describe url t)))] := by
  simp [processItem, processGit, hclone, hex, hdir]

/-- C8 witness: the spec's own example — `https://example.com/foo.git` at a
ref resolving to "v1.2" produces `sources/foo-v1.2.tar.gz` with internal
path prefix `foo/`. -/
theorem C8_amended_witness :
    envOk.cloneOk "https://example.com/foo.git" = true ∧
    fsSourcesOnly.existsFile "foo-v1.2.tar.gz" = false ∧
    fsSourcesOnly.hasDir "sources" = true ∧
    processItem envOk fsSourcesOnly
        (.GitRepository "https://example.com/foo.git" (some "v1.2")) =
      .done (fsSourcesOnly.put "sources/foo-v1.2.tar.gz" [5, 5])
        [.cloning "https://example.com/foo.git", .gitCloned "https://example.com/foo.git",
         .archived "foo/" "v1.2" "foo-v1.2.tar.gz", .copied "sources/foo-v1.2.tar.gz"] :=
  ⟨rfl, rfl, rfl,
    C8_amended envOk fsSourcesOnly "https://example.com/foo.git" "v1.2" rfl rfl rfl⟩

/-- C9: when a URL item carries a hash spec with a supported algorithm and
its destination file exists but is empty, the single `f.read(4096)` returns
no data and the stray `break` (src line 281) exits the entire descriptor
loop: every remaining descriptor is left unprocessed. -/
theorem C9_break_exits_loop (env : Env) (fs : FS) (url alg hv : String)
    (rest : List Descriptor)
    (hsup : env.algos.contains alg = true)
    (hok : (env.http url).ok = true)
    (hex : fs.existsFile (osJoin "sources" (env.http url).filename) = true)
    (hempty : fs.read (osJoin "sources" (env.http url).filename) = []) :
    processAll env fs (.TarballURL url (some (alg, hv)) :: rest) =
      .stopped fs [.downloading url, .httpGot url] rest := by
  have hsup2 : alg ∈ env.algos := by simpa using hsup
  simp [processAll, processItem, processUrl, hsup2, hok, hex, hempty]

/-- C9 witness: with an empty `sources/a.tgz` on disk and a hash-carrying
descriptor, the run stops with the second descriptor unprocessed. -/
theorem C9_break_exits_loop_witness :
    envOk.algos.contains "alg1" = true ∧
    (envOk.http "https://x/a.tgz").ok = true ∧
    fsEmptyTgz.existsFile "sources/a.tgz" = true ∧
    fsEmptyTgz.read "sources/a.tgz" = [] ∧
    processAll envOk fsEmptyTgz
        [.TarballURL "https://x/a.tgz" (some ("alg1", "zz")),
         .PatchURL "https://x/p.patch"] =
      .stopped fsEmptyTgz [.downloading "https://x/a.tgz", .httpGot "https://x/a.tgz"]
        [.PatchURL "https://x/p.patch"] :=
  ⟨rfl, rfl, rfl, rfl,
    C9_break_exits_loop envOk fsEmptyTgz "https://x/a.tgz" "alg1" "zz"
      [.PatchURL "https://x/p.patch"] rfl rfl rfl rfl⟩

/-- C10: nothing on the git path creates the `sources/` directory (only the
URL path runs `os.makedirs`, src line 299), so when `sources/` is missing
at the copy step the `shutil.copyfile` raises an uncaught filesystem error
and the run terminates with every later descriptor unprocessed. -/
theorem C10_missing_sources_dir (env : Env) (fs : FS) (url t : String)
    (rest : List Descriptor)
    (hclone : env.cloneOk url = true)
    (hex : fs.existsFile (tarballName url (env.describe url t)) = false)
    (hdir : fs.hasDir "sources" = false) :
    processAll env fs (.GitRepository url (some t) :: rest) =
      .errored (.missingDir (osJoin "sources" (tarballName url (env.describe url t))))
        [.cloning url, .gitCloned url,
         .archived (repoName url ++ "/") t (tarballName url (env.describe url t))] rest := by
  simp [processAll, processItem, processGit, hclone, hex, hdir]

/-- C10 witness: a run on an empty filesystem whose first descriptor is a
git repository dies at the copy step, leaving the second descriptor
unprocessed. -/
theorem C10_missing_sources_dir_witness :
    envOk.cloneOk "https://example.com/foo.git" = true ∧
    fsNil.existsFile "foo-v1.tar.gz" = false ∧
    fsNil.hasDir "sources" = false ∧
    processAll envOk fsNil
        [.GitRepository "https://example.com/foo.git" (some "v1"),
         .PatchURL "https://x/q.patch"] =
      .errored (.missingDir "sources/foo-v1.tar.gz")
        [.cloning "https://example.com/foo.git", .gitCloned "https://example.com/foo.git",
         .archived "foo/" "v1" "foo-v1.tar.gz"]
        [.PatchURL "https://x/q.patch"] :=
  ⟨rfl, rfl, rfl,
    C10_missing_sources_dir envOk fsNil "https://example.com/foo.git" "v1"
      [.PatchURL "https://x/q.patch"] rfl rfl rfl⟩

/-- Events of the download path: the written file is always reported. -/
theorem events_doDownload_wrote (env : Env) (fs : FS) (path : String)
    (resp : HttpResponse) (dspec : Option (String × String)) (evs : List Event) :
    Event.wrote path ∈ (doDownload env fs path resp dspec evs).events := by
  rcases dspec with _ | ⟨alg, hv⟩
  · simp [doDownload, ItemOutcome.events]
  · by_cases hb : hv = env.hash alg resp.body <;>
      simp [doDownload, ItemOutcome.events, hb]

/-- Events of the download path: no hash-skip warning is ever added. -/
theorem events_doDownload_no_skipHash (env : Env) (fs : FS) (path : String)
    (resp : HttpResponse) (dspec : Option (String × String)) (evs : List Event)
    (p2 : String) (h : Event.skipHashMatch p2 ∉ evs) :
    Event.skipHashMatch p2 ∉ (doDownload env fs path resp dspec evs).events := by
  rcases dspec with _ | ⟨alg, hv⟩
  · simp [doDownload, ItemOutcome.events, h]
  · by_cases hb : hv = env.hash alg resp.body <;>
      simp [doDownload, ItemOutcome.events, hb, h]

/-- Events of the size heuristic: the file is written exactly when the
declared content length does not equal the local size. -/
theorem events_sizeGate_wrote_iff (env : Env) (fs : FS) (path : String)
    (resp : HttpResponse) (dspec : Option (String × String)) (evs : List Event)
    (h : Event.wrote path ∉ evs) :
    (Event.wrote path ∈ (sizeGate env fs path resp dspec evs).events ↔
      ¬ resp.contentLength = some (fs.size path)) := by
  rcases hcl : resp.contentLength with _ | t
  · simp [sizeGate, hcl, events_doDownload_wrote]
  · by_cases hsz : fs.size path = t
    · simp [sizeGate, hcl, hsz, ItemOutcome.events, h]
    · have hsz2 : ¬(t = fs.size path) := fun hh => hsz hh.symm
      simp [sizeGate, hcl, hsz, hsz2, events_doDownload_wrote]

/-- Events of the size heuristic: no hash-skip warning is ever added. -/
theorem events_sizeGate_no_skipHash (env : Env) (fs : FS) (path : String)
    (resp : HttpResponse) (dspec : Option (String × String)) (evs : List Event)
    (p2 : String) (h : Event.skipHashMatch p2 ∉ evs) :
    Event.skipHashMatch p2 ∉ (sizeGate env fs path resp dspec evs).events := by
  rcases hcl : resp.contentLength with _ | t
  · simp only [sizeGate, hcl]
    exact events_doDownload_no_skipHash env fs path resp dspec _ p2 (by simp [h])
  · by_cases hsz : fs.size path = t
    · simp [sizeGate, hcl, hsz, ItemOutcome.events, h]
    · simp only [sizeGate, hcl]
      rw [if_neg hsz]
      exact events_doDownload_no_skipHash env fs path resp dspec _ p2 h

/-- C3 counterexample: for an existing destination file with a supported
hash algorithm, a digest mismatch does *not* force a re-download.  Here the
local file's digest differs from the expected value "zz", yet the item is
skipped because control falls through to the size heuristic (src lines
290-297) and the size equals the declared content length — contradicting
"skips exactly when the recomputed digest equals the expected digest". -/
theorem C3_counterexample :
    processAll envOk fsSomeTgz [.TarballURL "https://x/a.tgz" (some ("alg1", "zz"))] =
      .finished fsSomeTgz
        [.downloading "https://x/a.tgz", .httpGot "https://x/a.tgz",
         .skipSizeMatch "sources/a.tgz"] := by
  rfl

/-- C3 amended: for an existing, non-empty destination file and a supported
algorithm, the digest is recomputed over only the first (up to) 4096 bytes
of the local file (a single `f.read(4096)`, src line 278); the download is
skipped with a hash-match warning exactly when that digest equals the
expected value, and on mismatch the code falls back to the size heuristic —
the file is (re)written exactly when neither the first-4096-bytes digest
matches nor the declared content length equals the local size. -/
theorem C3_amended (env : Env) (fs : FS) (url alg hv : String)
    (hsup : env.algos.contains alg = true)
    (hok : (env.http url).ok = true)
    (hex : fs.existsFile (osJoin "sources" (env.http url).filename) = true)
    (hne : fs.read (osJoin "sources" (env.http url).filename) ≠ []) :
    ((Event.skipHashMatch (osJoin "sources" (env.http url).filename) ∈
        (processItem env fs (.TarballURL url (some (alg, hv)))).events)
      ↔ hv = env.hash alg ((fs.read (osJoin "sources" (env.http url).filename)).take 4096))
    ∧
    ((Event.wrote (osJoin "sources" (env.http url).filename) ∈
        (processItem env fs (.TarballURL url (some (alg, hv)))).events)
      ↔ ¬(hv = env.hash alg ((fs.read (osJoin "sources" (env.http url).filename)).take 4096)
          ∨ (env.http url).contentLength =
              some (fs.size (osJoin "sources" (env.http url).filename)))) := by
  have hsup2 : alg ∈ env.algos := by simpa using hsup
  have hdata : ((fs.read (osJoin "sources" (env.http url).filename)).take 4096).isEmpty = false :=
    take_isEmpty_false _ _ hne (by omega)
  by_cases hm : hv = env.hash alg ((fs.read (osJoin "sources" (env.http url).filename)).take 4096)
  · simp [processItem, processUrl, ItemOutcome.events, hsup2, hok, hex, hdata, hm]
  · have hred : processItem env fs (.TarballURL url (some (alg, hv))) =
        sizeGate env fs (osJoin "sources" (env.http url).filename) (env.http url)
          (some (alg, hv)) [Event.downloading url, Event.httpGot url] := by
      simp [processItem, processUrl, hsup2, hok, hex, hdata, hm]
    rw [hred]
    constructor
    · constructor
      · intro hmem
        exact absurd hmem
          (events_sizeGate_no_skipHash env fs _ (env.http url) _ _ _ (by simp))
      · intro hh
        exact absurd hh hm
    · rw [events_sizeGate_wrote_iff env fs _ (env.http url) _ _ (by simp)]
      simp [hm]

/-- C3 witness: the amended behavior at the concrete skip-on-size run of
the counterexample: the hash does not match, the size does, and no write
event is produced. -/
theorem C3_amended_witness :
    envOk.algos.contains "alg1" = true ∧
    (envOk.http "https://x/a.tgz").ok = true ∧
    fsSomeTgz.existsFile "sources/a.tgz" = true ∧
    fsSomeTgz.read "sources/a.tgz" ≠ [] ∧
    (((Event.skipHashMatch "sources/a.tgz" ∈
        (processItem envOk fsSomeTgz
          (.TarballURL "https://x/a.tgz" (some ("alg1", "zz")))).events)
      ↔ "zz" = envOk.hash "alg1" ((fsSomeTgz.read "sources/a.tgz").take 4096))
    ∧
    ((Event.wrote "sources/a.tgz" ∈
        (processItem envOk fsSomeTgz
          (.TarballURL "https://x/a.tgz" (some ("alg1", "zz")))).events)
      ↔ ¬("zz" = envOk.hash "alg1" ((fsSomeTgz.read "sources/a.tgz").take 4096)
          ∨ (envOk.http "https://x/a.tgz").contentLength =
              some (fsSomeTgz.size "sources/a.tgz")))) :=
  ⟨rfl, rfl, rfl, by decide,
    C3_amended envOk fsSomeTgz "https://x/a.tgz" "alg1" "zz" rfl rfl rfl (by decide)⟩
